import Mathlib

/-!
Verification of the core logic of `picard/ui/options/renaming.py`
(the `RenamingOptionsPage` options page of the Picard tagger).

The embedding models:
- the validation operations `check_format` and `check`,
- the `load` / `save` configuration round trip (including the
  `str.strip` and `os.path.normpath` post-processing that `save` applies),
- the Windows-compatibility forcing performed by `load`,
- the signal-blocking discipline used by the selection synchronization
  (`update_selector_from_editor`, `match_after_to_before` /
  `match_before_to_after`),
- the `current_row` bookkeeping of `display_examples`.

The external scripting engine (`picard.script.ScriptParser`) is treated as
a black box: operations that call `parser.eval` are parameterized by a
function `engine : String → Except String String` giving, for each script
text, either the evaluated string or the raised exception's message.
-/

set_option autoImplicit false

namespace Renaming

/-- Whitespace for Python `str.strip()` (ASCII portion). -/
def isPySpace (c : Char) : Bool :=
  c = ' ' || c = '\t' || c = '\n' || c = '\r' || c = '\x0b' || c = '\x0c'

/-- Python `str.strip()` on the texts involved here: drop leading and
trailing whitespace characters. -/
def pyStrip (s : String) : String :=
  ⟨((s.data.dropWhile isPySpace).reverse.dropWhile isPySpace).reverse⟩

/-- Exceptions raised by the page's validation methods:
`ScriptCheckError(title, info)` (raised by `check_format`) and
`OptionsCheckError(title, info)` (raised by `check` for the move
destination). Both carry a title and an info message. -/
inductive CheckError where
  | scriptCheckError (title info : String)
  | optionsCheckError (title info : String)
  deriving DecidableEq, Repr

/-- The message of the empty-format error raised at renaming.py line 281. -/
def emptyFormatMsg : String := "The file naming format must not be empty."

/-- The message of the empty-destination error raised at renaming.py line 271. -/
def emptyDestinationMsg : String := "The location to move files to must not be empty."

/-- The checkbox / line-edit values of the page's widgets, as read through
`isChecked()` / `text()`. -/
structure UIState where
  windows_compatibility : Bool
  ascii_filenames : Bool
  rename_files : Bool
  move_files : Bool
  move_files_to : String
  move_additional_files : Bool
  move_additional_files_pattern : String
  delete_empty_dirs : Bool
  deriving DecidableEq, Repr

/-- `check_format` (renaming.py lines 273-281): first submit
`self.script_text` to the scripting engine; any exception becomes a
`ScriptCheckError("", str(e))`.  Then, only if renaming is enabled, a
pattern that strips to the empty string raises
`ScriptCheckError("", emptyFormatMsg)`. -/
def check_format (engine : String → Except String String)
    (script_text : String) (rename_files : Bool) : Except CheckError Unit :=
  match engine script_text with
  | .error e => .error (.scriptCheckError "" e)
  | .ok _ =>
    if rename_files then
      if pyStrip script_text = "" then
        .error (.scriptCheckError "" emptyFormatMsg)
      else
        .ok ()
    else
      .ok ()

/-- `check` (renaming.py lines 268-271): run `check_format` (its exception
propagates), then raise `OptionsCheckError` when moving is enabled and the
destination text strips to the empty string. -/
def check (engine : String → Except String String)
    (script_text : String) (ui : UIState) : Except CheckError Unit :=
  match check_format engine script_text ui.rename_files with
  | .error e => .error e
  | .ok _ =>
    if ui.move_files = true ∧ pyStrip ui.move_files_to = "" then
      .error (.optionsCheckError "Error" emptyDestinationMsg)
    else
      .ok ()

/-- C1: with a pattern the engine accepts and that strips to the empty
string, `check_format` fails with the empty-format error exactly when
renaming is enabled, and succeeds when renaming is disabled. -/
theorem check_format_empty_pattern
    (engine : String → Except String String) (pattern v : String)
    (hok : engine pattern = .ok v) (hempty : pyStrip pattern = "") :
    check_format engine pattern true
        = .error (.scriptCheckError "" emptyFormatMsg)
    ∧ check_format engine pattern false = .ok () := by
  constructor <;> simp [check_format, hok, hempty]

/-- Witness for C1 at the concrete empty pattern with an engine that
accepts it. -/
theorem check_format_empty_pattern_witness :
    check_format (fun _ => Except.ok "") "" true
        = .error (.scriptCheckError "" emptyFormatMsg)
    ∧ check_format (fun _ => Except.ok "") "" false = .ok () :=
  check_format_empty_pattern (fun _ => Except.ok "") "" "" rfl (by decide)

/-- C2: `check_format` always submits the pattern to the engine first: an
engine failure is reported as a `ScriptCheckError` carrying the engine's
message, for every value of the rename flag; and when the engine succeeds,
the validation outcome does not depend on the engine's evaluation result. -/
theorem check_format_syntax_stage
    (engine engine' : String → Except String String)
    (script msg v v' : String) (r : Bool) :
    (engine script = .error msg →
      check_format engine script r = .error (.scriptCheckError "" msg))
    ∧ (engine script = .ok v → engine' script = .ok v' →
      check_format engine script r = check_format engine' script r) := by
  constructor
  · intro herr
    simp [check_format, herr]
  · intro hok hok'
    simp [check_format, hok, hok']

/-- Witness for C2: a concrete engine failure on an invalid pattern is
reported even with renaming disabled, and two engines returning different
evaluation results validate a pattern identically. -/
theorem check_format_syntax_stage_witness :
    check_format (fun _ => Except.error "Unexpected end of script") "$invalid(" false
        = .error (.scriptCheckError "" "Unexpected end of script")
    ∧ check_format (fun _ => Except.ok "a") "%title%" true
        = check_format (fun _ => Except.ok "b") "%title%" true :=
  ⟨(check_format_syntax_stage (fun _ => Except.error "Unexpected end of script")
      (fun _ => Except.error "Unexpected end of script")
      "$invalid(" "Unexpected end of script" "" "" false).1 rfl,
   (check_format_syntax_stage (fun _ => Except.ok "a") (fun _ => Except.ok "b")
      "%title%" "" "a" "b" true).2 rfl rfl⟩

/-- A page widget state with moving enabled and a whitespace-only move
destination (the blank-destination scenario). -/
def uiBlankDest : UIState :=
  { windows_compatibility := false, ascii_filenames := false,
    rename_files := false, move_files := true, move_files_to := "  ",
    move_additional_files := false,
    move_additional_files_pattern := "*.jpg *.png",
    delete_empty_dirs := true }

/-- C3 counterexample: with an invalid format and a blank move destination,
`check` surfaces only the format error — the destination error is not
produced even though moving is enabled and the destination is blank. -/
theorem check_only_format_error_on_both_bad :
    uiBlankDest.move_files = true
    ∧ pyStrip uiBlankDest.move_files_to = ""
    ∧ check (fun _ => Except.error "Unexpected end of script") "$invalid(" uiBlankDest
        = .error (.scriptCheckError "" "Unexpected end of script")
    ∧ check (fun _ => Except.error "Unexpected end of script") "$invalid(" uiBlankDest
        ≠ .error (.optionsCheckError "Error" emptyDestinationMsg) := by
  refine ⟨rfl, by decide, rfl, ?_⟩
  intro h
  simp [check, check_format] at h

/-- C3 amended: `check` short-circuits — when format validation fails, that
error propagates and the destination validation does not run. -/
theorem check_short_circuits_on_format_error
    (engine : String → Except String String) (script : String)
    (ui : UIState) (e : CheckError)
    (h : check_format engine script ui.rename_files = .error e) :
    check engine script ui = .error e := by
  simp [check, h]

/-- Witness for the amended C3 at a concrete failing format. -/
theorem check_short_circuits_on_format_error_witness :
    check (fun _ => Except.error "boom") "$x(" uiBlankDest
      = .error (.scriptCheckError "" "boom") :=
  check_short_circuits_on_format_error
    (fun _ => Except.error "boom") "$x(" uiBlankDest
    (.scriptCheckError "" "boom") rfl

/-- C4: given format validation succeeds, `check` fails with the
empty-destination error iff moving is enabled and the destination strips to
the empty string. -/
theorem check_empty_destination_iff
    (engine : String → Except String String) (script : String) (ui : UIState)
    (hfmt : check_format engine script ui.rename_files = .ok ()) :
    check engine script ui
        = .error (.optionsCheckError "Error" emptyDestinationMsg)
      ↔ (ui.move_files = true ∧ pyStrip ui.move_files_to = "") := by
  by_cases h : ui.move_files = true ∧ pyStrip ui.move_files_to = "" <;>
    simp [check, hfmt, h]

/-- Witness for C4: moving enabled with destination `"  "` fails with the
empty-destination error (format validation passing). -/
theorem check_empty_destination_iff_witness :
    check (fun _ => Except.ok "") "%title%" uiBlankDest
      = .error (.optionsCheckError "Error" emptyDestinationMsg) :=
  (check_empty_destination_iff (fun _ => Except.ok "") "%title%"
    uiBlankDest rfl).mpr ⟨rfl, by decide⟩

/-! ## The persisted configuration and the load / save operations -/

/-- The persisted configuration schema: the eleven `config.setting` keys
this page reads and writes.  `file_naming_scripts` entries are opaque
script records that the page copies wholesale; they are modelled as
strings. -/
structure Config where
  windows_compatibility : Bool
  ascii_filenames : Bool
  rename_files : Bool
  file_naming_format : String
  move_files : Bool
  move_files_to : String
  move_additional_files : Bool
  move_additional_files_pattern : String
  delete_empty_dirs : Bool
  file_naming_scripts : List String
  selected_file_naming_script_id : String
  deriving DecidableEq, Repr

/-- The page state the load/save claims touch: the `script_text` attribute,
the `current_row` attribute, the enabled flag of the windows-compatibility
checkbox, and the widget values. -/
structure PageState where
  script_text : String
  current_row : Int
  windows_compatibility_enabled : Bool
  ui : UIState
  deriving DecidableEq, Repr

/-- The state of the external script editor surface that `save` reads
(`script_editor_page.naming_scripts` and `.selected_script_id`). -/
structure EditorState where
  naming_scripts : List String
  selected_script_id : String
  deriving DecidableEq, Repr

/-- The host indicators set by `save`:
`tagger.window.enable_renaming_action.setChecked(...)` and
`tagger.window.enable_moving_action.setChecked(...)`. -/
structure HostActions where
  enable_renaming : Bool
  enable_moving : Bool
  deriving DecidableEq, Repr

/-- Split a character list on `'/'` (Python `path.split(sep)`). -/
def splitOnSlash : List Char → List (List Char)
  | [] => [[]]
  | c :: rest =>
    let r := splitOnSlash rest
    if c = '/' then [] :: r
    else
      match r with
      | [] => [[c]]
      | h :: t => (c :: h) :: t

/-- One step of posixpath.normpath's component loop: skip empty and `"."`
components; append a component unless it is a `".."` that cancels against a
previous real component. -/
def normpathStep (initialSlashes : Nat) (acc : List String) (comp : String) :
    List String :=
  if comp = "" ∨ comp = "." then acc
  else if comp ≠ ".."
      ∨ (initialSlashes = 0 ∧ acc = [])
      ∨ (acc ≠ [] ∧ acc.getLast? = some "..") then
    acc ++ [comp]
  else if acc ≠ [] then acc.dropLast
  else acc

/-- Join path components with `'/'` (Python `sep.join(comps)`). -/
def joinComps : List String → String
  | [] => ""
  | [c] => c
  | c :: rest => c ++ "/" ++ joinComps rest

/-- `os.path.normpath` on a POSIX host (posixpath.normpath): an empty path
becomes `"."`, one or two (but not three or more) leading slashes are
preserved, empty and `"."` components are dropped, and `".."` cancels a
preceding real component. -/
def normpath (path : String) : String :=
  if path = "" then "."
  else
    let initialSlashes : Nat :=
      match path.data with
      | '/' :: '/' :: '/' :: _ => 1
      | '/' :: '/' :: _ => 2
      | '/' :: _ => 1
      | _ => 0
    let comps := (splitOnSlash path.data).map (fun l => (⟨l⟩ : String))
    let newComps := comps.foldl (normpathStep initialSlashes) []
    let p := String.join (List.replicate initialSlashes "/") ++ joinComps newComps
    if p = "" then "." else p

/-- `load` (renaming.py lines 249-266): on Windows force the
windows-compatibility checkbox to checked and disable it; otherwise take
its value from the stored configuration.  All other widget values and
`script_text` come from the stored configuration. -/
def load (isWin : Bool) (cfg : Config) (st : PageState) : PageState :=
  { st with
    script_text := cfg.file_naming_format,
    windows_compatibility_enabled :=
      if isWin then false else st.windows_compatibility_enabled,
    ui := { st.ui with
      windows_compatibility := if isWin then true else cfg.windows_compatibility,
      rename_files := cfg.rename_files,
      move_files := cfg.move_files,
      ascii_filenames := cfg.ascii_filenames,
      move_files_to := cfg.move_files_to,
      move_additional_files := cfg.move_additional_files,
      move_additional_files_pattern := cfg.move_additional_files_pattern,
      delete_empty_dirs := cfg.delete_empty_dirs } }

/-- `save` (renaming.py lines 283-297): write every one of the eleven
option keys back to the configuration — stripping the naming format and
path-normalizing the move destination — and set the host's
renaming/moving action indicators from the freshly written
`rename_files` / `move_files` values. -/
def save (st : PageState) (editor : EditorState) (cfg0 : Config) :
    Config × HostActions :=
  let cfg :=
    { cfg0 with
      windows_compatibility := st.ui.windows_compatibility,
      ascii_filenames := st.ui.ascii_filenames,
      rename_files := st.ui.rename_files,
      file_naming_format := pyStrip st.script_text,
      move_files := st.ui.move_files,
      move_files_to := normpath st.ui.move_files_to,
      move_additional_files := st.ui.move_additional_files,
      move_additional_files_pattern := st.ui.move_additional_files_pattern,
      delete_empty_dirs := st.ui.delete_empty_dirs,
      file_naming_scripts := editor.naming_scripts,
      selected_file_naming_script_id := editor.selected_script_id }
  (cfg, { enable_renaming := cfg.rename_files, enable_moving := cfg.move_files })

/-- `load()` followed immediately by `save()`, with no intervening edits. -/
def roundTrip (isWin : Bool) (st : PageState) (editor : EditorState)
    (cfg : Config) : Config :=
  (save (load isWin cfg st) editor cfg).1

/-- An arbitrary concrete page state prior to `load`. -/
def pageZero : PageState :=
  { script_text := "", current_row := -1,
    windows_compatibility_enabled := true,
    ui := { windows_compatibility := false, ascii_filenames := false,
            rename_files := false, move_files := false, move_files_to := "",
            move_additional_files := false,
            move_additional_files_pattern := "",
            delete_empty_dirs := false } }

/-- An arbitrary concrete editor state. -/
def editorZero : EditorState := { naming_scripts := [], selected_script_id := "" }

/-- A stored configuration whose naming format carries surrounding
whitespace. -/
def cfgPadded : Config :=
  { windows_compatibility := false, ascii_filenames := false,
    rename_files := false, file_naming_format := " %title% ",
    move_files := false, move_files_to := "/music",
    move_additional_files := false,
    move_additional_files_pattern := "*.jpg *.png",
    delete_empty_dirs := true, file_naming_scripts := [],
    selected_file_naming_script_id := "" }

/-- A stored configuration already in the normal form that `save`
produces: stripped naming format, normalized destination. -/
def cfgNormalized : Config :=
  { windows_compatibility := true, ascii_filenames := false,
    rename_files := true, file_naming_format := "%artist%/%title%",
    move_files := true, move_files_to := "/home/user/Music",
    move_additional_files := true,
    move_additional_files_pattern := "*.jpg *.png",
    delete_empty_dirs := true, file_naming_scripts := [],
    selected_file_naming_script_id := "" }

/-- C5 counterexample: a stored naming format with surrounding whitespace
is not written back byte-identically — `save` strips it. -/
theorem roundTrip_not_byte_identical :
    (roundTrip false pageZero editorZero cfgPadded).file_naming_format
      ≠ cfgPadded.file_naming_format := by decide

/-- C5 amended: on a non-Windows host, `load()` then `save()` with no
intervening edits writes back byte-identical values for every one of the
nine persisted fields, provided the stored naming format is already
stripped and the stored move destination is already path-normalized (save
unconditionally strips the former and normalizes the latter; on Windows it
additionally forces windows_compatibility to true). -/
theorem roundTrip_identical_on_normalized
    (st : PageState) (editor : EditorState) (cfg : Config)
    (hfmt : pyStrip cfg.file_naming_format = cfg.file_naming_format)
    (hdest : normpath cfg.move_files_to = cfg.move_files_to) :
    (roundTrip false st editor cfg).windows_compatibility
        = cfg.windows_compatibility
    ∧ (roundTrip false st editor cfg).ascii_filenames = cfg.ascii_filenames
    ∧ (roundTrip false st editor cfg).rename_files = cfg.rename_files
    ∧ (roundTrip false st editor cfg).file_naming_format
        = cfg.file_naming_format
    ∧ (roundTrip false st editor cfg).move_files = cfg.move_files
    ∧ (roundTrip false st editor cfg).move_files_to = cfg.move_files_to
    ∧ (roundTrip false st editor cfg).move_additional_files
        = cfg.move_additional_files
    ∧ (roundTrip false st editor cfg).move_additional_files_pattern
        = cfg.move_additional_files_pattern
    ∧ (roundTrip false st editor cfg).delete_empty_dirs
        = cfg.delete_empty_dirs := by
  simp [roundTrip, save, load, hfmt, hdest]

/-- Witness for the amended C5 at a concrete normalized configuration. -/
theorem roundTrip_identical_on_normalized_witness :
    (roundTrip false pageZero editorZero cfgNormalized).windows_compatibility
        = cfgNormalized.windows_compatibility
    ∧ (roundTrip false pageZero editorZero cfgNormalized).ascii_filenames
        = cfgNormalized.ascii_filenames
    ∧ (roundTrip false pageZero editorZero cfgNormalized).rename_files
        = cfgNormalized.rename_files
    ∧ (roundTrip false pageZero editorZero cfgNormalized).file_naming_format
        = cfgNormalized.file_naming_format
    ∧ (roundTrip false pageZero editorZero cfgNormalized).move_files
        = cfgNormalized.move_files
    ∧ (roundTrip false pageZero editorZero cfgNormalized).move_files_to
        = cfgNormalized.move_files_to
    ∧ (roundTrip false pageZero editorZero cfgNormalized).move_additional_files
        = cfgNormalized.move_additional_files
    ∧ (roundTrip false pageZero editorZero
          cfgNormalized).move_additional_files_pattern
        = cfgNormalized.move_additional_files_pattern
    ∧ (roundTrip false pageZero editorZero cfgNormalized).delete_empty_dirs
        = cfgNormalized.delete_empty_dirs :=
  roundTrip_identical_on_normalized pageZero editorZero cfgNormalized
    (by decide) (by decide)

/-- C6: on Windows, `load` checks the windows-compatibility box and
disables it regardless of the stored value; on other platforms `load`
takes the flag from the stored configuration and leaves the checkbox's
enabled state untouched. -/
theorem load_windows_compatibility (cfg : Config) (st : PageState) :
    (load true cfg st).ui.windows_compatibility = true
    ∧ (load true cfg st).windows_compatibility_enabled = false
    ∧ (load false cfg st).ui.windows_compatibility = cfg.windows_compatibility
    ∧ (load false cfg st).windows_compatibility_enabled
        = st.windows_compatibility_enabled := by
  simp [load]

/-- C7: `save` writes all eleven configuration keys — so its result is
independent of the previous configuration contents — and sets the host's
renaming-enabled and moving-enabled indicators to the final values of
`rename_files` and `move_files`. -/
theorem save_writes_all_fields (st : PageState) (editor : EditorState)
    (cfg cfg' : Config) :
    (save st editor cfg).1.windows_compatibility = st.ui.windows_compatibility
    ∧ (save st editor cfg).1.ascii_filenames = st.ui.ascii_filenames
    ∧ (save st editor cfg).1.rename_files = st.ui.rename_files
    ∧ (save st editor cfg).1.file_naming_format = pyStrip st.script_text
    ∧ (save st editor cfg).1.move_files = st.ui.move_files
    ∧ (save st editor cfg).1.move_files_to = normpath st.ui.move_files_to
    ∧ (save st editor cfg).1.move_additional_files = st.ui.move_additional_files
    ∧ (save st editor cfg).1.move_additional_files_pattern
        = st.ui.move_additional_files_pattern
    ∧ (save st editor cfg).1.delete_empty_dirs = st.ui.delete_empty_dirs
    ∧ (save st editor cfg).1.file_naming_scripts = editor.naming_scripts
    ∧ (save st editor cfg).1.selected_file_naming_script_id
        = editor.selected_script_id
    ∧ (save st editor cfg).2.enable_renaming = (save st editor cfg).1.rename_files
    ∧ (save st editor cfg).2.enable_moving = (save st editor cfg).1.move_files
    ∧ save st editor cfg = save st editor cfg' := by
  simp [save]

/-- The override context built by `update_examples_from_local`
(renaming.py lines 233-242) and handed to the preview engine. -/
structure OverrideContext where
  ascii_filenames : Bool
  move_files : Bool
  move_files_to : String
  rename_files : Bool
  windows_compatibility : Bool
  deriving DecidableEq, Repr

/-- The dictionary literal of `update_examples_from_local`: current widget
values, with the destination text passed through `os.path.normpath`. -/
def update_examples_override (ui : UIState) : OverrideContext :=
  { ascii_filenames := ui.ascii_filenames,
    move_files := ui.move_files,
    move_files_to := normpath ui.move_files_to,
    rename_files := ui.rename_files,
    windows_compatibility := ui.windows_compatibility }

/-- C9: the move destination is path-normalized both in the preview
override context and on `save`; the empty destination is stored as `"."`
and redundant separators are collapsed. -/
theorem move_destination_normalized (st : PageState) (editor : EditorState)
    (cfg : Config) (ui : UIState) :
    (save st editor cfg).1.move_files_to = normpath st.ui.move_files_to
    ∧ (update_examples_override ui).move_files_to = normpath ui.move_files_to
    ∧ normpath "" = "."
    ∧ normpath "a//b" = "a/b"
    ∧ (save { pageZero with
          ui := { pageZero.ui with move_files_to := "" } } editorZero
          cfg).1.move_files_to = "." := by
  refine ⟨rfl, rfl, by decide, by decide, rfl⟩

/-- The rendered contents of the before/after example list boxes. -/
structure ExampleLists where
  before : List String
  after : List String
  deriving DecidableEq, Repr

/-- `display_examples` (renaming.py lines 244-247): reset `current_row`
to -1, then render the (before, after) example pairs into the two list
boxes. -/
def display_examples (st : PageState) (examples : List (String × String)) :
    PageState × ExampleLists :=
  ({ st with current_row := -1 },
   { before := examples.map Prod.fst, after := examples.map Prod.snd })

/-- The page state produced by `__init__` for the attributes modelled
here: `script_text` starts empty (line 110) and `current_row` starts
at -1 (line 163). -/
def initPage (ui : UIState) (wcEnabled : Bool) : PageState :=
  { script_text := "", current_row := -1,
    windows_compatibility_enabled := wcEnabled, ui := ui }

/-- C10: the active row is -1 at construction, and `display_examples`
resets it to -1 before re-rendering, for every prior state. -/
theorem current_row_reset (ui : UIState) (wcEnabled : Bool) (st : PageState)
    (examples : List (String × String)) :
    (initPage ui wcEnabled).current_row = -1
    ∧ ((display_examples st examples).1).current_row = -1 :=
  ⟨rfl, rfl⟩

/-! ## Selection synchronization and echo suppression -/

/-- A QComboBox as used by the selector synchronization: its (title, data)
items, current index (-1 when empty), and signal-block flag. -/
structure Combo where
  items : List (String × String)
  currentIndex : Int
  blocked : Bool
  deriving DecidableEq, Repr

/-- The currentIndexChanged emissions caused by moving a combo's index from
`old` to `j`: none while signals are blocked or when the index does not
change. -/
def Combo.emitted (blocked : Bool) (old j : Int) : List Int :=
  if blocked then [] else if old = j then [] else [j]

/-- `blockSignals(b)`. -/
def Combo.blockSignals (c : Combo) (b : Bool) : Combo := { c with blocked := b }

/-- `clear()`: removes all items and resets the current index to -1,
emitting currentIndexChanged when that is a change. -/
def Combo.clear (c : Combo) : Combo × List Int :=
  ({ c with items := [], currentIndex := -1 },
   Combo.emitted c.blocked c.currentIndex (-1))

/-- `addItem(title, data)`: appends an item; adding to an empty combo makes
index 0 current (emitting currentIndexChanged unless blocked). -/
def Combo.addItem (c : Combo) (title dat : String) : Combo × List Int :=
  let j : Int := if c.items.isEmpty then 0 else c.currentIndex
  ({ c with items := c.items ++ [(title, dat)], currentIndex := j },
   Combo.emitted c.blocked c.currentIndex j)

/-- `setCurrentIndex(i)`. -/
def Combo.setCurrentIndex (c : Combo) (i : Int) : Combo × List Int :=
  ({ c with currentIndex := i }, Combo.emitted c.blocked c.currentIndex i)

/-- One iteration of the item-copying loop of
`update_selector_from_editor`, accumulating emitted signals. -/
def addAllStep (acc : Combo × List Int) (it : String × String) :
    Combo × List Int :=
  ((acc.1.addItem it.1 it.2).1, acc.2 ++ (acc.1.addItem it.1 it.2).2)

/-- The item-copying loop of `update_selector_from_editor`. -/
def addAll (start : Combo × List Int) (items : List (String × String)) :
    Combo × List Int :=
  items.foldl addAllStep start

/-- `update_selector_from_editor` (renaming.py lines 165-175): block the
selector's signals, clear it, copy every (title, data) item from the
editor's preset combo, set the current index to the editor's current
index, then unblock.  The returned list collects every
currentIndexChanged emission — each would invoke the connected
`update_selector_in_editor` slot (line 135). -/
def update_selector_from_editor (selector editorPresets : Combo) :
    Combo × List Int :=
  let s0 := selector.blockSignals true
  let r1 := s0.clear
  let r2 := addAll (r1.1, r1.2) editorPresets.items
  let r3 := r2.1.setCurrentIndex editorPresets.currentIndex
  (r3.1.blockSignals false, r2.2 ++ r3.2)

/-- A QListWidget as used by the example-list synchronization: its current
row and signal-block flag. -/
structure ListW where
  currentRow : Int
  blocked : Bool
  deriving DecidableEq, Repr

/-- Modelled from the spec: `synchronize_selected_example_lines` belongs to
the external script-editor surface (`picard.ui.scripteditor`), which is not
part of this module.  Per the spec's SelectionSynchronizer contract,
selecting a row in one view updates the authoritative current row and
programmatically selects the same row in the peer view with the peer's
signals blocked, so the programmatic update emits no selection-changed
event (echo suppression); when the source row already equals the current
row nothing is propagated.  Returns (new current row, updated target,
selection-changed events emitted by the target). -/
def synchronize_selected_example_lines (current_row : Int)
    (source target : ListW) : Int × ListW × List Int :=
  if source.currentRow = current_row then
    (current_row, target, [])
  else
    let row := source.currentRow
    let t1 : ListW := { target with blocked := true }
    let emitted : List Int :=
      if t1.blocked then [] else if t1.currentRow = row then [] else [row]
    let t2 : ListW := { t1 with currentRow := row }
    (row, { t2 with blocked := false }, emitted)

/-- The example-list synchronization state: the page's `current_row` and
the two example list widgets. -/
structure ExampleSync where
  current_row : Int
  before : ListW
  after : ListW
  deriving DecidableEq, Repr

/-- `match_after_to_before` (renaming.py lines 182-185): handler of the
before-list's itemSelectionChanged signal; propagates the before-list
selection to the after-list.  Returns the new state and the
itemSelectionChanged events emitted by the after-list. -/
def match_after_to_before (s : ExampleSync) : ExampleSync × List Int :=
  let r := synchronize_selected_example_lines s.current_row s.before s.after
  ({ s with current_row := r.1, after := r.2.1 }, r.2.2)

/-- `match_before_to_after` (renaming.py lines 187-190): handler of the
after-list's itemSelectionChanged signal; propagates the after-list
selection to the before-list. -/
def match_before_to_after (s : ExampleSync) : ExampleSync × List Int :=
  let r := synchronize_selected_example_lines s.current_row s.after s.before
  ({ s with current_row := r.1, before := r.2.1 }, r.2.2)

/-- The two selection-changed signals of the example lists. -/
inductive Ev where
  | beforeChanged
  | afterChanged
  deriving DecidableEq, Repr

/-- Qt signal dispatch for the wiring of renaming.py lines 137-138:
before.itemSelectionChanged → match_after_to_before and
after.itemSelectionChanged → match_before_to_after.  Running a handler
yields the new state and the follow-up signals its programmatic updates
emitted. -/
def dispatch (s : ExampleSync) : Ev → ExampleSync × List Ev
  | .beforeChanged =>
    let r := match_after_to_before s
    (r.1, r.2.map (fun _ => Ev.afterChanged))
  | .afterChanged =>
    let r := match_before_to_after s
    (r.1, r.2.map (fun _ => Ev.beforeChanged))

/-- Run the pending signal queue to quiescence (fuel-bounded), counting
handler invocations. -/
def runEvents : Nat → ExampleSync → List Ev → ExampleSync × Nat
  | _, s, [] => (s, 0)
  | 0, s, _ :: _ => (s, 0)
  | fuel + 1, s, e :: rest =>
    let r := dispatch s e
    let r' := runEvents fuel r.1 (r.2 ++ rest)
    (r'.1, r'.2 + 1)

/-- A user click selecting row `i` in the after list (the widget updates
its own current row, then its itemSelectionChanged signal fires). -/
def userSelectAfter (s : ExampleSync) (i : Int) : ExampleSync :=
  { s with after := { s.after with currentRow := i } }

/-- The item-copying loop keeps the selector's signals blocked and emits
nothing. -/
theorem addAll_blocked (items : List (String × String)) :
    ∀ (c : Combo) (es : List Int), c.blocked = true →
      (addAll (c, es) items).1.blocked = true
      ∧ (addAll (c, es) items).2 = es := by
  induction items with
  | nil => intro c es hb; exact ⟨hb, rfl⟩
  | cons it rest ih =>
    intro c es hb
    have hstep1 : (addAllStep (c, es) it).1.blocked = true := by
      simp [addAllStep, Combo.addItem, hb]
    have hstep2 : (addAllStep (c, es) it).2 = es := by
      simp [addAllStep, Combo.addItem, Combo.emitted, hb]
    have hfold : addAll (c, es) (it :: rest)
        = addAll ((addAllStep (c, es) it).1, (addAllStep (c, es) it).2) rest := by
      simp [addAll, List.foldl]
    obtain ⟨h1, h2⟩ := ih (addAllStep (c, es) it).1 (addAllStep (c, es) it).2 hstep1
    rw [hfold]
    exact ⟨h1, by rw [h2, hstep2]⟩

/-- Propagating a selection to a peer list emits no selection-changed
event: the peer's signals are blocked during the programmatic update. -/
theorem sync_emits_nothing (row : Int) (source target : ListW) :
    (synchronize_selected_example_lines row source target).2.2 = [] := by
  unfold synchronize_selected_example_lines
  split <;> rfl

/-- C8: selection synchronization never re-fires the initiating handler:
rebuilding the local selector from the editor emits no currentIndexChanged
(so `update_selector_in_editor` is not re-invoked), and a single user
selection of row `i` in the after list runs exactly one handler invocation
— no recursive echo — propagating the selection to the before list when
`i` differs from the current row. -/
theorem selection_echo_suppression
    (sel ed : Combo) (s : ExampleSync) (i : Int) (fuel : Nat) :
    (update_selector_from_editor sel ed).2 = []
    ∧ (runEvents (fuel + 1) (userSelectAfter s i) [Ev.afterChanged]).2 = 1
    ∧ (i ≠ s.current_row →
        ((runEvents (fuel + 1) (userSelectAfter s i)
            [Ev.afterChanged]).1).before.currentRow = i) := by
  have hdisp : (dispatch (userSelectAfter s i) Ev.afterChanged).2 = [] := by
    simp [dispatch, match_before_to_after, sync_emits_nothing]
  have hrun : runEvents (fuel + 1) (userSelectAfter s i) [Ev.afterChanged]
      = ((dispatch (userSelectAfter s i) Ev.afterChanged).1, 1) := by
    simp [runEvents, hdisp]
  refine ⟨?_, ?_, ?_⟩
  · obtain ⟨hb, he⟩ := addAll_blocked ed.items
      ((Combo.blockSignals sel true).clear).1
      ((Combo.blockSignals sel true).clear).2 rfl
    simp only [update_selector_from_editor, Combo.setCurrentIndex]
    rw [hb, he]
    rfl
  · rw [hrun]
  · intro hne
    rw [hrun]
    simp [dispatch, match_before_to_after, synchronize_selected_example_lines,
      userSelectAfter, hne]

/-- Witness for C8 at a concrete selector pair, sync state, row 3 and
fuel 5. -/
theorem selection_echo_suppression_witness :
    (update_selector_from_editor
        { items := [("Default", "s0")], currentIndex := 0, blocked := false }
        { items := [("Default", "s0"), ("Custom", "s1")], currentIndex := 1,
          blocked := false }).2 = []
    ∧ (runEvents 5 (userSelectAfter
        { current_row := -1,
          before := { currentRow := -1, blocked := false },
          after := { currentRow := -1, blocked := false } } 3)
        [Ev.afterChanged]).2 = 1
    ∧ ((runEvents 5 (userSelectAfter
        { current_row := -1,
          before := { currentRow := -1, blocked := false },
          after := { currentRow := -1, blocked := false } } 3)
        [Ev.afterChanged]).1).before.currentRow = 3 :=
  ⟨(selection_echo_suppression
      { items := [("Default", "s0")], currentIndex := 0, blocked := false }
      { items := [("Default", "s0"), ("Custom", "s1")], currentIndex := 1,
        blocked := false }
      { current_row := -1,
        before := { currentRow := -1, blocked := false },
        after := { currentRow := -1, blocked := false } } 3 4).1,
   (selection_echo_suppression
      { items := [("Default", "s0")], currentIndex := 0, blocked := false }
      { items := [("Default", "s0"), ("Custom", "s1")], currentIndex := 1,
        blocked := false }
      { current_row := -1,
        before := { currentRow := -1, blocked := false },
        after := { currentRow := -1, blocked := false } } 3 4).2.1,
   (selection_echo_suppression
      { items := [("Default", "s0")], currentIndex := 0, blocked := false }
      { items := [("Default", "s0"), ("Custom", "s1")], currentIndex := 1,
        blocked := false }
      { current_row := -1,
        before := { currentRow := -1, blocked := false },
        after := { currentRow := -1, blocked := false } } 3 4).2.2
      (by decide)⟩

end Renaming
